import Mathlib

/-!
Verification development for the sic image-operation parser.

Tokens are modelled as their character sequences (`List Char`); the Rust
sources operate on `&str` values and this development mirrors uses of
`starts_with`, `split_at(2)`, `len` and equality on the character level.

Two parsers of the repository are embedded:
* the hand-written prototype parser of `src/cli_parse` (`Parser::next`,
  `Op::from_str`, `Modifier`), embedded as `pstep` / `prototype`;
* the cli-argument parser of `components/sic_cli_ops`
  (`create_image_ops_cli`, `take_n`).

The numeric-coercion layer (`cli_parse/parse_to.rs`, `cli_parse/core/numbers.rs`)
and the operation catalog of `sic_cli_ops` (`operations.rs`, `errors.rs`,
`value_parser.rs`) are not part of the provided sources; the definitions
standing in for them are modelled from the specification and carry a
`Modelled from the spec:` doc comment.
-/

abbrev Token := List Char

/-- Character sequence of a string literal, the token alphabet of the parser. -/
def tok (s : String) : Token := s.data

/-- StopMark for String (cli_parse/mod.rs): the end-of-text character 0x03. -/
def stopMark : Token := [Char.ofNat 3]

/-- is_long_arg (cli_parse/mod.rs): starts with `--` and has length above 2. -/
def is_long_arg (arg : Token) : Bool := (tok "--").isPrefixOf arg && decide (2 < arg.length)

/-- is_short_arg (cli_parse/mod.rs): starts with `-` and has length exactly 2. -/
def is_short_arg (arg : Token) : Bool := (tok "-").isPrefixOf arg && decide (arg.length = 2)

/-- is_cli_arg (cli_parse/mod.rs). -/
def is_cli_arg (arg : Token) : Bool := is_long_arg arg || is_short_arg arg

/-- Modelled from the spec: `cli_parse/core/numbers.rs` is not under src.
A parsed `f32` is represented by its validated literal token; the spec only
requires a signed-float coercion with a float-specific failure. -/
structure F32 where
  lit : Token
deriving DecidableEq, Repr

/-- Numeric value of a digit sequence. -/
def digitsToNat (cs : List Char) : Nat :=
  cs.foldl (fun a c => a * 10 + (c.toNat - 48)) 0

/-- Modelled from the spec: unsigned 32-bit coercion of `parse_to.rs`.
Accepts an optional leading `+` followed by decimal digits with a value
below `2 ^ 32`; anything negative-looking or non-numeric is rejected. -/
def parseU32 (t : Token) : Option Nat :=
  let body := match t with
    | '+' :: r => r
    | _ => t
  if body ≠ [] ∧ body.all Char.isDigit ∧ digitsToNat body < 2 ^ 32 then
    some (digitsToNat body)
  else none

/-- Modelled from the spec: signed 32-bit coercion of `parse_to.rs`.
Optional sign followed by decimal digits, within the `i32` range. -/
def parseI32 (t : Token) : Option Int :=
  match t with
  | '-' :: r =>
    if r ≠ [] ∧ r.all Char.isDigit ∧ digitsToNat r ≤ 2 ^ 31 then
      some (-(Int.ofNat (digitsToNat r)))
    else none
  | '+' :: r =>
    if r ≠ [] ∧ r.all Char.isDigit ∧ digitsToNat r < 2 ^ 31 then
      some (Int.ofNat (digitsToNat r))
    else none
  | _ =>
    if t ≠ [] ∧ t.all Char.isDigit ∧ digitsToNat t < 2 ^ 31 then
      some (Int.ofNat (digitsToNat t))
    else none

/-- Mantissa of a float literal: `digits`, `digits.`, `digits.digits` or `.digits`. -/
def floatMantissa (t : Token) : Bool :=
  let intPart := t.takeWhile Char.isDigit
  let rest := t.drop intPart.length
  match rest with
  | [] => !intPart.isEmpty
  | '.' :: frac => frac.all Char.isDigit && (!intPart.isEmpty || !frac.isEmpty)
  | _ => false

/-- Exponent part of a float literal: optional sign then one or more digits. -/
def floatExponent (t : Token) : Bool :=
  let body := match t with
    | '+' :: r => r
    | '-' :: r => r
    | _ => t
  !body.isEmpty && body.all Char.isDigit

/-- Unsigned part of a float literal: special names or mantissa with optional exponent. -/
def floatBody (t : Token) : Bool :=
  let lower := t.map Char.toLower
  if lower = tok "inf" ∨ lower = tok "infinity" ∨ lower = tok "nan" then true
  else
    let m := t.takeWhile fun c => !(c = 'e' || c = 'E')
    let r := t.drop m.length
    match r with
    | [] => floatMantissa m
    | _ :: ex => floatMantissa m && floatExponent ex

/-- Modelled from the spec: signed-float coercion of `parse_to.rs`, following
the `f32` literal grammar; the value is kept as its literal token. -/
def parseF32 (t : Token) : Option F32 :=
  let body := match t with
    | '+' :: r => r
    | '-' :: r => r
    | _ => t
  if floatBody body then some ⟨t⟩ else none

/-- Modelled from the spec: error enumeration of `parse_to.rs`, which is not
under src. The numeric and modifier constructors are the ones the provided
sources construct or match on; `ArgumentCountMismatch` is the kind the spec
assigns to running out of argument tokens. The modifier-declaration error is
named `InvalidModifierSyntaxError` here (shortened from the source spelling
by an `Error` suffix). -/
inductive ParsePerTypeError
  | ParseFloatError
  | ParseIntError
  | ParseUIntError
  | ArgumentCountMismatch
  | InvalidModifierSyntaxError
  | InvalidOperationForModifier
  | ModifierArgumentExpected
deriving DecidableEq, Repr

/-- ParserError (cli_parse/mod.rs). -/
inductive ParserError
  | Unexpected (t : Token)
  | PPTE (e : ParsePerTypeError)
deriving DecidableEq, Repr

/-- Op (cli_parse/core/op.rs). The `F32`, `I32`, `U32` payloads are the
modelled numeric types; tuples and the nine-element kernel keep their shape. -/
inductive Op
  | Blur (arg : F32)
  | Brighten (arg : Int)
  | Contrast (arg : F32)
  | Crop (arg : Nat × Nat × Nat × Nat)
  | Filter3x3 (arg : List F32)
  | FlipHorizontal
  | FlipVertical
  | Grayscale
  | HueRotate (arg : Int)
  | Invert
  | Resize (arg : Nat × Nat)
  | Rotate90
  | Rotate180
  | Rotate270
  | Unsharpen (arg : F32 × Int)
deriving DecidableEq, Repr

/-- Kebab-case variant names of `Op` in declaration order (strum `variants()`). -/
def opVariants : List Token :=
  [tok "blur", tok "brighten", tok "contrast", tok "crop", tok "filter3x3",
   tok "flip-horizontal", tok "flip-vertical", tok "grayscale", tok "hue-rotate",
   tok "invert", tok "resize", tok "rotate90", tok "rotate180", tok "rotate270",
   tok "unsharpen"]

/-- Op::is_some (cli_parse/core/op.rs): membership in the variant-name list. -/
def Op.is_some (input : Token) : Bool := opVariants.contains input

/-- Modelled from the spec: one step of `ParseFromIter` of `parse_to.rs`:
take the next token and coerce it, classifying the failure per requested kind;
a missing token is an argument-count mismatch. -/
def parseOne {α : Type} (coer : Token → Option α) (err : ParsePerTypeError)
    (l : List Token) : Except ParsePerTypeError (α × List Token) :=
  match l with
  | [] => .error .ArgumentCountMismatch
  | t :: ts =>
    match coer t with
    | some v => .ok (v, ts)
    | none => .error err

/-- Modelled from the spec: `ParseFromIter` for `(u32, u32, u32, u32)` (crop). -/
def parseU32x4 (l : List Token) :
    Except ParsePerTypeError ((Nat × Nat × Nat × Nat) × List Token) :=
  match parseOne parseU32 .ParseUIntError l with
  | .error e => .error e
  | .ok (a, l1) =>
    match parseOne parseU32 .ParseUIntError l1 with
    | .error e => .error e
    | .ok (b, l2) =>
      match parseOne parseU32 .ParseUIntError l2 with
      | .error e => .error e
      | .ok (c, l3) =>
        match parseOne parseU32 .ParseUIntError l3 with
        | .error e => .error e
        | .ok (d, l4) => .ok ((a, b, c, d), l4)

/-- Modelled from the spec: `ParseFromIter` for `(u32, u32)` (resize). -/
def parseU32x2 (l : List Token) :
    Except ParsePerTypeError ((Nat × Nat) × List Token) :=
  match parseOne parseU32 .ParseUIntError l with
  | .error e => .error e
  | .ok (a, l1) =>
    match parseOne parseU32 .ParseUIntError l1 with
    | .error e => .error e
    | .ok (b, l2) => .ok ((a, b), l2)

/-- Modelled from the spec: `ParseFromIter` for `(F32, i32)` (unsharpen). -/
def parseF32I32 (l : List Token) :
    Except ParsePerTypeError ((F32 × Int) × List Token) :=
  match parseOne parseF32 .ParseFloatError l with
  | .error e => .error e
  | .ok (a, l1) =>
    match parseOne parseI32 .ParseIntError l1 with
    | .error e => .error e
    | .ok (b, l2) => .ok ((a, b), l2)

/-- Modelled from the spec: `ParseFromIter` for `[F32; n]` (filter3x3 uses 9). -/
def parseF32s : Nat → List Token → Except ParsePerTypeError (List F32 × List Token)
  | 0, l => .ok ([], l)
  | n + 1, l =>
    match parseOne parseF32 .ParseFloatError l with
    | .error e => .error e
    | .ok (v, l1) =>
      match parseF32s n l1 with
      | .error e => .error e
      | .ok (vs, l2) => .ok (v :: vs, l2)

/-- Result shaping of one argument-taking arm of `Op::from_str`:
`ParseFromIter::parse(iter).map_err(ParserError::PPTE).map(constructor)`,
wrapped in `Some`. -/
def res1 {α : Type} (mk : α → Op)
    (p : List Token → Except ParsePerTypeError (α × List Token))
    (l : List Token) : Option (Except ParserError (Op × List Token)) :=
  match p l with
  | .ok (v, rest) => some (.ok (mk v, rest))
  | .error e => some (.error (.PPTE e))

/-- Op::from_str (cli_parse/core/op.rs): dispatch on the operation name,
consuming the typed arguments from the remaining stream; zero-argument
operations leave the stream untouched. Unknown names give `none`. -/
def Op.from_str (iter : List Token) (input : Token) :
    Option (Except ParserError (Op × List Token)) :=
  if input = tok "blur" then res1 Op.Blur (parseOne parseF32 .ParseFloatError) iter
  else if input = tok "brighten" then res1 Op.Brighten (parseOne parseI32 .ParseIntError) iter
  else if input = tok "contrast" then res1 Op.Contrast (parseOne parseF32 .ParseFloatError) iter
  else if input = tok "crop" then res1 Op.Crop parseU32x4 iter
  else if input = tok "filter3x3" then res1 Op.Filter3x3 (parseF32s 9) iter
  else if input = tok "flip-horizontal" then some (.ok (Op.FlipHorizontal, iter))
  else if input = tok "flip-vertical" then some (.ok (Op.FlipVertical, iter))
  else if input = tok "grayscale" then some (.ok (Op.Grayscale, iter))
  else if input = tok "hue-rotate" then res1 Op.HueRotate (parseOne parseI32 .ParseIntError) iter
  else if input = tok "invert" then some (.ok (Op.Invert, iter))
  else if input = tok "resize" then res1 Op.Resize parseU32x2 iter
  else if input = tok "rotate90" then some (.ok (Op.Rotate90, iter))
  else if input = tok "rotate180" then some (.ok (Op.Rotate180, iter))
  else if input = tok "rotate270" then some (.ok (Op.Rotate270, iter))
  else if input = tok "unsharpen" then res1 Op.Unsharpen parseF32I32 iter
  else none

/-- Modifier (cli_parse/core/modifier.rs). -/
inductive Modifier
  | PreserveAspectRatio
  | SamplingFilter (s : Token)
deriving DecidableEq, Repr

/-- Core (cli_parse/mod.rs). -/
inductive Core
  | Operation (op : Op)
  | SetModifier (n : Nat) (m : Modifier)
  | Skip
deriving DecidableEq, Repr

/-- Modifier::modifier_start (cli_parse/core/modifier.rs): the token starts with `set`. -/
def Modifier.modifier_start (input : Token) : Bool := (tok "set").isPrefixOf input

/-- Modifier::consume_args (cli_parse/core/modifier.rs): reads the modifier
keyword and, for `sampling-filter`, one further argument token. -/
def Modifier.consume_args (l : List Token) : Except ParserError (Modifier × List Token) :=
  match l with
  | [] => .error (.PPTE .InvalidModifierSyntaxError)
  | which :: ts =>
    if which = tok "preserve-aspect-ratio" then .ok (.PreserveAspectRatio, ts)
    else if which = tok "sampling-filter" then
      match ts with
      | [] => .error (.PPTE .ModifierArgumentExpected)
      | filt :: ts2 => .ok (.SamplingFilter filt, ts2)
    else .error (.PPTE .InvalidModifierSyntaxError)

/-- Modifier::modifier_for (cli_parse/core/modifier.rs): reads the target
operation name, then the modifier arguments; the emitted binding always
uses operation index 0. -/
def Modifier.modifier_for (l : List Token) : Except ParserError (Core × List Token) :=
  match l with
  | [] => .error (.PPTE .InvalidModifierSyntaxError)
  | v :: ts =>
    if Op.is_some v then
      match Modifier.consume_args ts with
      | .ok (m, rest) => .ok (Core.SetModifier 0 m, rest)
      | .error e => .error e
    else .error (.PPTE .InvalidOperationForModifier)

/-- Marker stripping of `Parser::next`: a long-arg token loses its first two
characters before dispatch. -/
def stripToken (t : Token) : Token := if is_long_arg t then t.drop 2 else t

/-- Outcome of one `Parser::next` call. -/
inductive Step
  | done
  | fail (e : ParserError)
  | emit (c : Core) (rest : List Token)
deriving DecidableEq, Repr

/-- Dispatch of `Parser::next` (cli_parse/mod.rs) on the marker-stripped
token: stop mark, operation, modifier declaration, foreign cli argument
(skipping forward to the next cli-argument boundary), or unexpected token. -/
def dispatch (token : Token) (ts : List Token) : Step :=
  if token = stopMark then .done
  else if Op.is_some token then
    match Op.from_str ts token with
    | none => .done
    | some (.error e) => .fail e
    | some (.ok (op, rest)) => .emit (.Operation op) rest
  else if Modifier.modifier_start token then
    match Modifier.modifier_for ts with
    | .ok (c, rest) => .emit c rest
    | .error e => .fail e
  else if is_cli_arg token then
    .emit .Skip (ts.dropWhile fun u => !is_cli_arg u)
  else .fail (.Unexpected token)

/-- Parser::next (cli_parse/mod.rs): consume the head token, strip the
cli marker when present, and dispatch. An exhausted source yields the stop
mark and terminates. -/
def pstep : List Token → Step
  | [] => .done
  | t :: ts => dispatch (stripToken t) ts

/-- Iterating `Parser::next` and collecting the results, with explicit fuel;
`prototype` supplies sufficient fuel. -/
def parseAllFuel : Nat → List Token → Except ParserError (List Core)
  | 0, _ => .ok []
  | n + 1, l =>
    match pstep l with
    | .done => .ok []
    | .fail e => .error e
    | .emit c rest => (parseAllFuel n rest).map (c :: ·)

/-- prototype (cli_parse/mod.rs): run the parser over the whole token list,
collecting instructions, stopping at the first error. -/
def prototype (l : List Token) : Except ParserError (List Core) :=
  parseAllFuel (l.length + 1) l

/-- Modelled from the spec: `sic_cli_ops/src/operations.rs` is not under src.
The closed operation-identifier catalog of §3/§4.2, including the two
modifier flags handled as pseudo-operations by the cli-argument parser. -/
inductive OperationId
  | Blur
  | Brighten
  | Contrast
  | Crop
  | Diff
  | Filter3x3
  | FlipHorizontal
  | FlipVertical
  | Grayscale
  | HueRotate
  | Invert
  | Resize
  | Rotate90
  | Rotate180
  | Rotate270
  | Unsharpen
  | PreserveAspectRatio
  | SamplingFilter
deriving DecidableEq, Repr

/-- Modelled from the spec: canonical lowercase-hyphenated name of each
operation identifier (§3). -/
def OperationId.name : OperationId → Token
  | .Blur => tok "blur"
  | .Brighten => tok "brighten"
  | .Contrast => tok "contrast"
  | .Crop => tok "crop"
  | .Diff => tok "diff"
  | .Filter3x3 => tok "filter3x3"
  | .FlipHorizontal => tok "flip-horizontal"
  | .FlipVertical => tok "flip-vertical"
  | .Grayscale => tok "grayscale"
  | .HueRotate => tok "hue-rotate"
  | .Invert => tok "invert"
  | .Resize => tok "resize"
  | .Rotate90 => tok "rotate90"
  | .Rotate180 => tok "rotate180"
  | .Rotate270 => tok "rotate270"
  | .Unsharpen => tok "unsharpen"
  | .PreserveAspectRatio => tok "preserve-aspect-ratio"
  | .SamplingFilter => tok "sampling-filter"

/-- Modelled from the spec: the `OperationId::VARIANTS` name list. -/
def OperationId.variantNames : List Token :=
  [tok "blur", tok "brighten", tok "contrast", tok "crop", tok "diff",
   tok "filter3x3", tok "flip-horizontal", tok "flip-vertical", tok "grayscale",
   tok "hue-rotate", tok "invert", tok "resize", tok "rotate90", tok "rotate180",
   tok "rotate270", tok "unsharpen", tok "preserve-aspect-ratio", tok "sampling-filter"]

/-- Modelled from the spec: fixed argument arity of each operation (§3, §4.2). -/
def OperationId.takes_number_of_arguments : OperationId → Nat
  | .Blur => 1
  | .Brighten => 1
  | .Contrast => 1
  | .Crop => 4
  | .Diff => 1
  | .Filter3x3 => 9
  | .FlipHorizontal => 0
  | .FlipVertical => 0
  | .Grayscale => 0
  | .HueRotate => 1
  | .Invert => 0
  | .Resize => 2
  | .Rotate90 => 0
  | .Rotate180 => 0
  | .Rotate270 => 0
  | .Unsharpen => 2
  | .PreserveAspectRatio => 1
  | .SamplingFilter => 1

/-- Modelled from the spec: kinds used to classify value-coercion failures
of the cli-argument parser (§4.1, §7). -/
inductive NumKind
  | float
  | int
  | uint
  | boolean
  | filterName
deriving DecidableEq, Repr

/-- Modelled from the spec: `sic_cli_ops/src/errors.rs` is not under src.
`ExpectedArgumentForImageOperation` carries the operation name and the
number of argument tokens actually available (the argument-count-mismatch
kind); `UnableToParseValueOfType` is the numeric-coercion failure kind. -/
inductive SicCliOpsError
  | ExpectedArgumentForImageOperation (op : Token) (got : Nat)
  | UnableToParseValueOfType (k : NumKind)
  | UnknownOperationError (t : Token)
  | InvalidScriptError (t : Token)
deriving DecidableEq, Repr

/-- Modelled from the spec: image-engine operation payloads (`ImgOp`). -/
inductive ImgOp
  | Blur (arg : F32)
  | Brighten (arg : Int)
  | Contrast (arg : F32)
  | Crop (arg : Nat × Nat × Nat × Nat)
  | Diff (path : Token)
  | Filter3x3 (arg : List F32)
  | FlipHorizontal
  | FlipVertical
  | GrayScale
  | HueRotate (arg : Int)
  | Invert
  | Resize (arg : Nat × Nat)
  | Rotate90
  | Rotate180
  | Rotate270
  | Unsharpen (arg : F32 × Int)
deriving DecidableEq, Repr

/-- Modelled from the spec: environment items added by modifier flags. -/
inductive EnvItem
  | PreserveAspectRatio (b : Bool)
  | CustomSamplingFilter (t : Token)
deriving DecidableEq, Repr

/-- Modelled from the spec: instructions of the image engine program. -/
inductive Instr
  | Operation (op : ImgOp)
  | EnvAdd (e : EnvItem)
deriving DecidableEq, Repr

/-- The closed set of resampling-filter names accepted by the cli-argument
parser (§4.3). -/
def filterTypeNames : List Token :=
  [tok "catmullrom", tok "gaussian", tok "lanczos3", tok "nearest", tok "triangle"]

/-- Modelled from the spec: `OperationId::try_from_name`; an unknown name is
an unknown-operation error (§4.2). -/
def OperationId.try_from_name (t : Token) : Except SicCliOpsError OperationId :=
  if t = tok "blur" then .ok .Blur
  else if t = tok "brighten" then .ok .Brighten
  else if t = tok "contrast" then .ok .Contrast
  else if t = tok "crop" then .ok .Crop
  else if t = tok "diff" then .ok .Diff
  else if t = tok "filter3x3" then .ok .Filter3x3
  else if t = tok "flip-horizontal" then .ok .FlipHorizontal
  else if t = tok "flip-vertical" then .ok .FlipVertical
  else if t = tok "grayscale" then .ok .Grayscale
  else if t = tok "hue-rotate" then .ok .HueRotate
  else if t = tok "invert" then .ok .Invert
  else if t = tok "resize" then .ok .Resize
  else if t = tok "rotate90" then .ok .Rotate90
  else if t = tok "rotate180" then .ok .Rotate180
  else if t = tok "rotate270" then .ok .Rotate270
  else if t = tok "unsharpen" then .ok .Unsharpen
  else if t = tok "preserve-aspect-ratio" then .ok .PreserveAspectRatio
  else if t = tok "sampling-filter" then .ok .SamplingFilter
  else .error (.UnknownOperationError t)

/-- Modelled from the spec: `OperationId::create_instruction` builds the typed
instruction from the exactly-arity argument tokens handed over by `take_n`,
coercing each token per the operation's argument types (§4.1, §4.2, §4.3);
a wrong token count surfaces as the argument-count-mismatch kind. -/
def OperationId.create_instruction : OperationId → List Token → Except SicCliOpsError Instr
  | .Blur, [a] =>
    match parseF32 a with
    | some v => .ok (.Operation (.Blur v))
    | none => .error (.UnableToParseValueOfType .float)
  | .Brighten, [a] =>
    match parseI32 a with
    | some v => .ok (.Operation (.Brighten v))
    | none => .error (.UnableToParseValueOfType .int)
  | .Contrast, [a] =>
    match parseF32 a with
    | some v => .ok (.Operation (.Contrast v))
    | none => .error (.UnableToParseValueOfType .float)
  | .Crop, [a, b, c, d] =>
    match parseU32 a, parseU32 b, parseU32 c, parseU32 d with
    | some x, some y, some z, some w => .ok (.Operation (.Crop (x, y, z, w)))
    | _, _, _, _ => .error (.UnableToParseValueOfType .uint)
  | .Diff, [a] => .ok (.Operation (.Diff a))
  | .Filter3x3, inputs =>
    if inputs.length = 9 then
      match inputs.mapM parseF32 with
      | some vs => .ok (.Operation (.Filter3x3 vs))
      | none => .error (.UnableToParseValueOfType .float)
    else .error (.ExpectedArgumentForImageOperation (tok "filter3x3") inputs.length)
  | .FlipHorizontal, [] => .ok (.Operation .FlipHorizontal)
  | .FlipVertical, [] => .ok (.Operation .FlipVertical)
  | .Grayscale, [] => .ok (.Operation .GrayScale)
  | .HueRotate, [a] =>
    match parseI32 a with
    | some v => .ok (.Operation (.HueRotate v))
    | none => .error (.UnableToParseValueOfType .int)
  | .Invert, [] => .ok (.Operation .Invert)
  | .Resize, [a, b] =>
    match parseU32 a, parseU32 b with
    | some x, some y => .ok (.Operation (.Resize (x, y)))
    | _, _ => .error (.UnableToParseValueOfType .uint)
  | .Rotate90, [] => .ok (.Operation .Rotate90)
  | .Rotate180, [] => .ok (.Operation .Rotate180)
  | .Rotate270, [] => .ok (.Operation .Rotate270)
  | .Unsharpen, [a, b] =>
    match parseF32 a, parseI32 b with
    | some x, some y => .ok (.Operation (.Unsharpen (x, y)))
    | some _, none => .error (.UnableToParseValueOfType .int)
    | none, _ => .error (.UnableToParseValueOfType .float)
  | .PreserveAspectRatio, [a] =>
    if a = tok "true" then .ok (.EnvAdd (.PreserveAspectRatio true))
    else if a = tok "false" then .ok (.EnvAdd (.PreserveAspectRatio false))
    else .error (.UnableToParseValueOfType .boolean)
  | .SamplingFilter, [a] =>
    if filterTypeNames.contains a then .ok (.EnvAdd (.CustomSamplingFilter a))
    else .error (.UnableToParseValueOfType .filterName)
  | opId, inputs => .error (.ExpectedArgumentForImageOperation opId.name inputs.length)

/-- take_n (sic_cli_ops/src/lib.rs): take exactly the operation's arity of
tokens from the stream, blindly; fewer available tokens than the arity is an
expected-argument error. The pair returned is (taken arguments, rest). -/
def take_n (l : List Token) (operation : OperationId) :
    Except SicCliOpsError (List Token × List Token) :=
  let n := operation.takes_number_of_arguments
  let args := l.take n
  if args.length ≠ n then
    .error (.ExpectedArgumentForImageOperation operation.name args.length)
  else .ok (args, l.drop n)

/-- Loop body of create_image_ops_cli (sic_cli_ops/src/lib.rs), with explicit
fuel; tokens that are not `--`-marked known operation names are skipped. -/
def create_image_ops_cli_go : Nat → List Token → Except SicCliOpsError (List Instr)
  | 0, _ => .ok []
  | fuel + 1, l =>
    match l with
    | [] => .ok []
    | arg :: rest =>
      if (tok "--").isPrefixOf arg && OperationId.variantNames.contains (arg.drop 2) then
        match OperationId.try_from_name (arg.drop 2) with
        | .error e => .error e
        | .ok opId =>
          match take_n rest opId with
          | .error e => .error e
          | .ok (inputs, rest2) =>
            match opId.create_instruction inputs with
            | .error e => .error e
            | .ok ins => (create_image_ops_cli_go fuel rest2).map (ins :: ·)
      else create_image_ops_cli_go fuel rest

/-- create_image_ops_cli (sic_cli_ops/src/lib.rs): parse cli image operation
definitions into image engine instructions. -/
def create_image_ops_cli (l : List Token) : Except SicCliOpsError (List Instr) :=
  create_image_ops_cli_go (l.length + 1) l

/-- A token list that is the concatenation of well-formed operation chunks:
each chunk is a recognized operation name followed by argument tokens that
`Op::from_str` consumes exactly, leaving the next chunk in place. -/
inductive Chunks : List Token → List Op → Prop
  | nil : Chunks [] []
  | cons {name : Token} {rest0 rest : List Token} {op : Op} {ops : List Op} :
      Op.is_some name = true →
      Op.from_str rest0 name = some (.ok (op, rest)) →
      Chunks rest ops →
      Chunks (name :: rest0) (op :: ops)

/-! ### Structural lemmas about the prototype parser -/

theorem dropWhile_length_le (p : Token → Bool) (l : List Token) :
    (l.dropWhile p).length ≤ l.length := by
  induction l with
  | nil => simp [List.dropWhile]
  | cons a as ih =>
    simp only [List.dropWhile]
    split
    · exact Nat.le_trans ih (Nat.le_succ _)
    · exact Nat.le_refl _

theorem parseOne_ok_length {α : Type} {coer : Token → Option α} {err : ParsePerTypeError}
    {l : List Token} {v : α} {r : List Token}
    (h : parseOne coer err l = .ok (v, r)) : r.length < l.length := by
  cases l with
  | nil => simp [parseOne] at h
  | cons t ts =>
    cases hc : coer t with
    | none => simp [parseOne, hc] at h
    | some w =>
      simp [parseOne, hc] at h
      obtain ⟨-, hr⟩ := h
      subst hr
      simp only [List.length_cons]
      omega

theorem parseU32x4_length {l : List Token} {v : Nat × Nat × Nat × Nat} {r : List Token}
    (h : parseU32x4 l = .ok (v, r)) : r.length ≤ l.length := by
  cases h1 : parseOne parseU32 .ParseUIntError l with
  | error e => simp [parseU32x4, h1] at h
  | ok p1 =>
    obtain ⟨a, l1⟩ := p1
    cases h2 : parseOne parseU32 .ParseUIntError l1 with
    | error e => simp [parseU32x4, h1, h2] at h
    | ok p2 =>
      obtain ⟨b, l2⟩ := p2
      cases h3 : parseOne parseU32 .ParseUIntError l2 with
      | error e => simp [parseU32x4, h1, h2, h3] at h
      | ok p3 =>
        obtain ⟨c, l3⟩ := p3
        cases h4 : parseOne parseU32 .ParseUIntError l3 with
        | error e => simp [parseU32x4, h1, h2, h3, h4] at h
        | ok p4 =>
          obtain ⟨d, l4⟩ := p4
          simp [parseU32x4, h1, h2, h3, h4] at h
          obtain ⟨-, hr⟩ := h
          subst hr
          have d1 := parseOne_ok_length h1
          have d2 := parseOne_ok_length h2
          have d3 := parseOne_ok_length h3
          have d4 := parseOne_ok_length h4
          omega

theorem parseU32x2_length {l : List Token} {v : Nat × Nat} {r : List Token}
    (h : parseU32x2 l = .ok (v, r)) : r.length ≤ l.length := by
  cases h1 : parseOne parseU32 .ParseUIntError l with
  | error e => simp [parseU32x2, h1] at h
  | ok p1 =>
    obtain ⟨a, l1⟩ := p1
    cases h2 : parseOne parseU32 .ParseUIntError l1 with
    | error e => simp [parseU32x2, h1, h2] at h
    | ok p2 =>
      obtain ⟨b, l2⟩ := p2
      simp [parseU32x2, h1, h2] at h
      obtain ⟨-, hr⟩ := h
      subst hr
      have d1 := parseOne_ok_length h1
      have d2 := parseOne_ok_length h2
      omega

theorem parseF32I32_length {l : List Token} {v : F32 × Int} {r : List Token}
    (h : parseF32I32 l = .ok (v, r)) : r.length ≤ l.length := by
  cases h1 : parseOne parseF32 .ParseFloatError l with
  | error e => simp [parseF32I32, h1] at h
  | ok p1 =>
    obtain ⟨a, l1⟩ := p1
    cases h2 : parseOne parseI32 .ParseIntError l1 with
    | error e => simp [parseF32I32, h1, h2] at h
    | ok p2 =>
      obtain ⟨b, l2⟩ := p2
      simp [parseF32I32, h1, h2] at h
      obtain ⟨-, hr⟩ := h
      subst hr
      have d1 := parseOne_ok_length h1
      have d2 := parseOne_ok_length h2
      omega

theorem parseF32s_length {n : Nat} {l : List Token} {v : List F32} {r : List Token}
    (h : parseF32s n l = .ok (v, r)) : r.length ≤ l.length := by
  induction n generalizing l v with
  | zero =>
    simp [parseF32s] at h
    obtain ⟨-, hr⟩ := h
    subst hr
    exact Nat.le_refl _
  | succ k ih =>
    cases h1 : parseOne parseF32 .ParseFloatError l with
    | error e => simp [parseF32s, h1] at h
    | ok p1 =>
      obtain ⟨a, l1⟩ := p1
      cases h2 : parseF32s k l1 with
      | error e => simp [parseF32s, h1, h2] at h
      | ok p2 =>
        obtain ⟨vs, l2⟩ := p2
        simp [parseF32s, h1, h2] at h
        obtain ⟨-, hr⟩ := h
        subst hr
        have d1 := parseOne_ok_length h1
        have d2 := ih h2
        omega

theorem res1_ok {α : Type} {mk : α → Op}
    {p : List Token → Except ParsePerTypeError (α × List Token)}
    {l : List Token} {op : Op} {r : List Token}
    (h : res1 mk p l = some (.ok (op, r))) : ∃ v, p l = .ok (v, r) ∧ op = mk v := by
  cases hp : p l with
  | error e => simp [res1, hp] at h
  | ok q =>
    obtain ⟨v, rest⟩ := q
    simp [res1, hp] at h
    obtain ⟨hv, hr⟩ := h
    subst hr
    exact ⟨v, rfl, hv.symm⟩

theorem res1_ne_none {α : Type} {mk : α → Op}
    {p : List Token → Except ParsePerTypeError (α × List Token)} {l : List Token} :
    res1 mk p l ≠ none := by
  unfold res1
  split <;> simp

theorem from_str_blur (l : List Token) :
    Op.from_str l (tok "blur") = res1 Op.Blur (parseOne parseF32 .ParseFloatError) l := rfl

theorem from_str_brighten (l : List Token) :
    Op.from_str l (tok "brighten") = res1 Op.Brighten (parseOne parseI32 .ParseIntError) l := rfl

theorem from_str_contrast (l : List Token) :
    Op.from_str l (tok "contrast") = res1 Op.Contrast (parseOne parseF32 .ParseFloatError) l := rfl

theorem from_str_crop (l : List Token) :
    Op.from_str l (tok "crop") = res1 Op.Crop parseU32x4 l := rfl

theorem from_str_filter3x3 (l : List Token) :
    Op.from_str l (tok "filter3x3") = res1 Op.Filter3x3 (parseF32s 9) l := rfl

theorem from_str_flip_horizontal (l : List Token) :
    Op.from_str l (tok "flip-horizontal") = some (.ok (Op.FlipHorizontal, l)) := rfl

theorem from_str_flip_vertical (l : List Token) :
    Op.from_str l (tok "flip-vertical") = some (.ok (Op.FlipVertical, l)) := rfl

theorem from_str_grayscale (l : List Token) :
    Op.from_str l (tok "grayscale") = some (.ok (Op.Grayscale, l)) := rfl

theorem from_str_hue_rotate (l : List Token) :
    Op.from_str l (tok "hue-rotate") = res1 Op.HueRotate (parseOne parseI32 .ParseIntError) l := rfl

theorem from_str_invert (l : List Token) :
    Op.from_str l (tok "invert") = some (.ok (Op.Invert, l)) := rfl

theorem from_str_resize (l : List Token) :
    Op.from_str l (tok "resize") = res1 Op.Resize parseU32x2 l := rfl

theorem from_str_rotate90 (l : List Token) :
    Op.from_str l (tok "rotate90") = some (.ok (Op.Rotate90, l)) := rfl

theorem from_str_rotate180 (l : List Token) :
    Op.from_str l (tok "rotate180") = some (.ok (Op.Rotate180, l)) := rfl

theorem from_str_rotate270 (l : List Token) :
    Op.from_str l (tok "rotate270") = some (.ok (Op.Rotate270, l)) := rfl

theorem from_str_unsharpen (l : List Token) :
    Op.from_str l (tok "unsharpen") = res1 Op.Unsharpen parseF32I32 l := rfl

theorem is_some_mem {t : Token} (hs : Op.is_some t = true) : t ∈ opVariants := by
  simpa [Op.is_some] using hs

theorem opname_props {t : Token} (hs : Op.is_some t = true) :
    is_long_arg t = false ∧ t ≠ stopMark ∧ Modifier.modifier_start t = false ∧
      is_short_arg t = false := by
  have hm := is_some_mem hs
  simp only [opVariants, List.mem_cons, List.not_mem_nil, or_false] at hm
  rcases hm with rfl | rfl | rfl | rfl | rfl | rfl | rfl | rfl | rfl | rfl | rfl | rfl | rfl | rfl | rfl
  all_goals exact ⟨by decide, by decide, by decide, by decide⟩

theorem from_str_ne_none {l : List Token} {t : Token} (hs : Op.is_some t = true) :
    Op.from_str l t ≠ none := by
  have hm := is_some_mem hs
  simp only [opVariants, List.mem_cons, List.not_mem_nil, or_false] at hm
  rcases hm with rfl | rfl | rfl | rfl | rfl | rfl | rfl | rfl | rfl | rfl | rfl | rfl | rfl | rfl | rfl
  · rw [from_str_blur]; exact res1_ne_none
  · rw [from_str_brighten]; exact res1_ne_none
  · rw [from_str_contrast]; exact res1_ne_none
  · rw [from_str_crop]; exact res1_ne_none
  · rw [from_str_filter3x3]; exact res1_ne_none
  · rw [from_str_flip_horizontal]; simp
  · rw [from_str_flip_vertical]; simp
  · rw [from_str_grayscale]; simp
  · rw [from_str_hue_rotate]; exact res1_ne_none
  · rw [from_str_invert]; simp
  · rw [from_str_resize]; exact res1_ne_none
  · rw [from_str_rotate90]; simp
  · rw [from_str_rotate180]; simp
  · rw [from_str_rotate270]; simp
  · rw [from_str_unsharpen]; exact res1_ne_none

theorem from_str_length {l : List Token} {t : Token} {op : Op} {r : List Token}
    (h : Op.from_str l t = some (.ok (op, r))) : r.length ≤ l.length := by
  by_cases hs : Op.is_some t = true
  case neg =>
    exfalso
    have hnone : Op.from_str l t = none := by
      unfold Op.from_str
      have hm : t ∉ opVariants := fun hmem => by
        have : Op.is_some t = true := by
          simpa [Op.is_some] using hmem
        exact hs this
      simp only [opVariants, List.mem_cons, List.not_mem_nil, or_false, not_or] at hm
      obtain ⟨n1, n2, n3, n4, n5, n6, n7, n8, n9, n10, n11, n12, n13, n14, n15⟩ := hm
      rw [if_neg n1, if_neg n2, if_neg n3, if_neg n4, if_neg n5, if_neg n6, if_neg n7,
        if_neg n8, if_neg n9, if_neg n10, if_neg n11, if_neg n12, if_neg n13, if_neg n14,
        if_neg n15]
    rw [hnone] at h
    exact absurd h (by simp)
  case pos =>
    have hm := is_some_mem hs
    simp only [opVariants, List.mem_cons, List.not_mem_nil, or_false] at hm
    rcases hm with rfl | rfl | rfl | rfl | rfl | rfl | rfl | rfl | rfl | rfl | rfl | rfl | rfl | rfl | rfl
    · rw [from_str_blur] at h
      obtain ⟨v, hp, -⟩ := res1_ok h
      exact Nat.le_of_lt (parseOne_ok_length hp)
    · rw [from_str_brighten] at h
      obtain ⟨v, hp, -⟩ := res1_ok h
      exact Nat.le_of_lt (parseOne_ok_length hp)
    · rw [from_str_contrast] at h
      obtain ⟨v, hp, -⟩ := res1_ok h
      exact Nat.le_of_lt (parseOne_ok_length hp)
    · rw [from_str_crop] at h
      obtain ⟨v, hp, -⟩ := res1_ok h
      exact parseU32x4_length hp
    · rw [from_str_filter3x3] at h
      obtain ⟨v, hp, -⟩ := res1_ok h
      exact parseF32s_length hp
    · rw [from_str_flip_horizontal] at h
      simp at h
      obtain ⟨-, hr⟩ := h
      subst hr
      exact Nat.le_refl _
    · rw [from_str_flip_vertical] at h
      simp at h
      obtain ⟨-, hr⟩ := h
      subst hr
      exact Nat.le_refl _
    · rw [from_str_grayscale] at h
      simp at h
      obtain ⟨-, hr⟩ := h
      subst hr
      exact Nat.le_refl _
    · rw [from_str_hue_rotate] at h
      obtain ⟨v, hp, -⟩ := res1_ok h
      exact Nat.le_of_lt (parseOne_ok_length hp)
    · rw [from_str_invert] at h
      simp at h
      obtain ⟨-, hr⟩ := h
      subst hr
      exact Nat.le_refl _
    · rw [from_str_resize] at h
      obtain ⟨v, hp, -⟩ := res1_ok h
      exact parseU32x2_length hp
    · rw [from_str_rotate90] at h
      simp at h
      obtain ⟨-, hr⟩ := h
      subst hr
      exact Nat.le_refl _
    · rw [from_str_rotate180] at h
      simp at h
      obtain ⟨-, hr⟩ := h
      subst hr
      exact Nat.le_refl _
    · rw [from_str_rotate270] at h
      simp at h
      obtain ⟨-, hr⟩ := h
      subst hr
      exact Nat.le_refl _
    · rw [from_str_unsharpen] at h
      obtain ⟨v, hp, -⟩ := res1_ok h
      exact parseF32I32_length hp

theorem modifier_start_shape {t : Token} (h : Modifier.modifier_start t = true) :
    ∃ r, t = 's' :: 'e' :: 't' :: r := by
  unfold Modifier.modifier_start at h
  have hp : tok "set" <+: t := List.isPrefixOf_iff_prefix.mp h
  obtain ⟨r, hr⟩ := hp
  exact ⟨r, hr.symm⟩

theorem modifier_start_not_long {t : Token} (h : Modifier.modifier_start t = true) :
    is_long_arg t = false := by
  obtain ⟨r, rfl⟩ := modifier_start_shape h
  rfl

theorem modifier_start_ne_stop {t : Token} (h : Modifier.modifier_start t = true) :
    t ≠ stopMark := by
  obtain ⟨r, rfl⟩ := modifier_start_shape h
  intro hc
  injection hc with h1 _
  exact absurd h1 (by decide)

theorem modifier_start_not_op {t : Token} (h : Modifier.modifier_start t = true) :
    Op.is_some t = false := by
  cases hc : Op.is_some t with
  | false => rfl
  | true =>
    have := (opname_props hc).2.2.1
    rw [this] at h
    exact absurd h (by simp)

theorem short_arg_props {t : Token} (h : is_short_arg t = true) :
    is_long_arg t = false ∧ t ≠ stopMark ∧ Op.is_some t = false ∧
      Modifier.modifier_start t = false := by
  obtain ⟨h1, h2⟩ := Bool.and_eq_true_iff.mp h
  have hlen : t.length = 2 := of_decide_eq_true h2
  refine ⟨?_, ?_, ?_, ?_⟩
  · unfold is_long_arg
    have hfalse : decide (2 < t.length) = false := by rw [hlen]; rfl
    rw [hfalse, Bool.and_false]
  · intro hc
    rw [hc] at hlen
    exact absurd hlen (by decide)
  · cases hc : Op.is_some t with
    | false => rfl
    | true => exact absurd h (by rw [(opname_props hc).2.2.2]; simp)
  · cases hm : Modifier.modifier_start t with
    | false => rfl
    | true =>
      exfalso
      obtain ⟨r, rfl⟩ := modifier_start_shape hm
      exact Bool.noConfusion h1

theorem consume_args_cons (which : Token) (ts : List Token) :
    Modifier.consume_args (which :: ts) =
      if which = tok "preserve-aspect-ratio" then .ok (.PreserveAspectRatio, ts)
      else if which = tok "sampling-filter" then
        match ts with
        | [] => .error (.PPTE .ModifierArgumentExpected)
        | filt :: ts2 => .ok (.SamplingFilter filt, ts2)
      else .error (.PPTE .InvalidModifierSyntaxError) := rfl

theorem modifier_for_cons (v : Token) (ts : List Token) :
    Modifier.modifier_for (v :: ts) =
      if Op.is_some v then
        match Modifier.consume_args ts with
        | .ok (m, rest) => .ok (Core.SetModifier 0 m, rest)
        | .error e => .error e
      else .error (.PPTE .InvalidOperationForModifier) := rfl

theorem consume_args_length {l : List Token} {m : Modifier} {r : List Token}
    (h : Modifier.consume_args l = .ok (m, r)) : r.length ≤ l.length := by
  cases l with
  | nil => simp [Modifier.consume_args] at h
  | cons which ts =>
    rw [consume_args_cons] at h
    by_cases h1 : which = tok "preserve-aspect-ratio"
    · rw [if_pos h1] at h
      simp at h
      obtain ⟨-, hr⟩ := h
      subst hr
      simp only [List.length_cons]
      omega
    · rw [if_neg h1] at h
      by_cases h2 : which = tok "sampling-filter"
      · rw [if_pos h2] at h
        cases ts with
        | nil => simp at h
        | cons f ts2 =>
          simp at h
          obtain ⟨-, hr⟩ := h
          subst hr
          simp only [List.length_cons]
          omega
      · rw [if_neg h2] at h
        simp at h

theorem modifier_for_length {l : List Token} {c : Core} {r : List Token}
    (h : Modifier.modifier_for l = .ok (c, r)) : r.length ≤ l.length := by
  cases l with
  | nil => simp [Modifier.modifier_for] at h
  | cons v ts =>
    rw [modifier_for_cons] at h
    by_cases h1 : Op.is_some v = true
    · rw [if_pos h1] at h
      cases hm : Modifier.consume_args ts with
      | error e => rw [hm] at h; exact absurd h (by simp)
      | ok p =>
        obtain ⟨m, r0⟩ := p
        rw [hm] at h
        simp at h
        obtain ⟨-, hr⟩ := h
        subst hr
        have := consume_args_length hm
        simp only [List.length_cons]
        omega
    · rw [if_neg h1] at h
      exact absurd h (by simp)

theorem dispatch_op {token : Token} {ts : List Token} {op : Op} {rest : List Token}
    (hs : Op.is_some token = true)
    (hf : Op.from_str ts token = some (.ok (op, rest))) :
    dispatch token ts = .emit (.Operation op) rest := by
  obtain ⟨-, hne, -, -⟩ := opname_props hs
  unfold dispatch
  rw [if_neg hne, if_pos hs, hf]

theorem dispatch_modifier {token : Token} {ts : List Token}
    (hne : token ≠ stopMark)
    (hno : Op.is_some token = false)
    (hm : Modifier.modifier_start token = true) :
    dispatch token ts =
      (match Modifier.modifier_for ts with
        | .ok (c, rest) => Step.emit c rest
        | .error e => Step.fail e) := by
  unfold dispatch
  rw [if_neg hne, if_neg (by simp [hno]), if_pos hm]

theorem dispatch_emit_length {token : Token} {ts : List Token} {c : Core} {rest : List Token}
    (h : dispatch token ts = .emit c rest) : rest.length ≤ ts.length := by
  unfold dispatch at h
  by_cases h1 : token = stopMark
  · rw [if_pos h1] at h
    exact absurd h (by simp)
  rw [if_neg h1] at h
  by_cases h2 : Op.is_some token = true
  · rw [if_pos h2] at h
    cases hf : Op.from_str ts token with
    | none => rw [hf] at h; exact absurd h (by simp)
    | some r0 =>
      rw [hf] at h
      cases r0 with
      | error e => exact absurd h (by simp)
      | ok p =>
        obtain ⟨op, r⟩ := p
        simp at h
        obtain ⟨-, hr⟩ := h
        subst hr
        exact from_str_length hf
  rw [if_neg h2] at h
  by_cases h3 : Modifier.modifier_start token = true
  · rw [if_pos h3] at h
    cases hm : Modifier.modifier_for ts with
    | error e => rw [hm] at h; exact absurd h (by simp)
    | ok p =>
      obtain ⟨c0, r⟩ := p
      rw [hm] at h
      simp at h
      obtain ⟨-, hr⟩ := h
      subst hr
      exact modifier_for_length hm
  rw [if_neg h3] at h
  by_cases h4 : is_cli_arg token = true
  · rw [if_pos h4] at h
    simp at h
    obtain ⟨-, hr⟩ := h
    subst hr
    exact dropWhile_length_le _ _
  · rw [if_neg h4] at h
    exact absurd h (by simp)

theorem dispatch_ne_done {token : Token} {ts : List Token} (h : token ≠ stopMark) :
    dispatch token ts ≠ .done := by
  unfold dispatch
  rw [if_neg h]
  by_cases h2 : Op.is_some token = true
  · rw [if_pos h2]
    cases hf : Op.from_str ts token with
    | none => exact absurd hf (from_str_ne_none h2)
    | some r =>
      cases r with
      | error e => simp
      | ok p => obtain ⟨op, rest⟩ := p; simp
  rw [if_neg h2]
  by_cases h3 : Modifier.modifier_start token = true
  · rw [if_pos h3]
    cases hm : Modifier.modifier_for ts with
    | ok p => obtain ⟨c, rest⟩ := p; simp
    | error e => simp
  rw [if_neg h3]
  by_cases h4 : is_cli_arg token = true
  · rw [if_pos h4]; simp
  · rw [if_neg h4]; simp

theorem pstep_cons (t : Token) (ts : List Token) :
    pstep (t :: ts) = dispatch (stripToken t) ts := rfl

theorem pstep_emit_length {l : List Token} {c : Core} {rest : List Token}
    (h : pstep l = .emit c rest) : rest.length < l.length := by
  cases l with
  | nil => exact absurd h (by simp [pstep])
  | cons t ts =>
    rw [pstep_cons] at h
    have := dispatch_emit_length h
    simp only [List.length_cons]
    omega

theorem parseAllFuel_step (n : Nat) (l : List Token) :
    parseAllFuel (n + 1) l =
      (match pstep l with
        | .done => .ok []
        | .fail e => .error e
        | .emit c rest => (parseAllFuel n rest).map (c :: ·)) := rfl

theorem parseAllFuel_congr : ∀ (n m : Nat) (l : List Token), l.length < n → l.length < m →
    parseAllFuel n l = parseAllFuel m l := by
  intro n
  induction n with
  | zero => intro m l h1 h2; omega
  | succ k ih =>
    intro m l h1 h2
    cases m with
    | zero => omega
    | succ j =>
      rw [parseAllFuel_step, parseAllFuel_step]
      cases hp : pstep l with
      | done => rfl
      | fail e => rfl
      | emit c rest =>
        have hlen := pstep_emit_length hp
        exact congrArg (Except.map fun x => c :: x) (ih j rest (by omega) (by omega))

theorem prototype_emit {l : List Token} {c : Core} {rest : List Token}
    (h : pstep l = .emit c rest) :
    prototype l = (prototype rest).map (c :: ·) := by
  unfold prototype
  rw [parseAllFuel_step, h]
  exact congrArg (Except.map fun x => c :: x)
    (parseAllFuel_congr l.length (rest.length + 1) rest (pstep_emit_length h)
      (Nat.lt_succ_self _))

theorem prototype_fail {l : List Token} {e : ParserError} (h : pstep l = .fail e) :
    prototype l = .error e := by
  unfold prototype
  rw [parseAllFuel_step, h]

theorem prototype_done {l : List Token} (h : pstep l = .done) :
    prototype l = .ok [] := by
  unfold prototype
  rw [parseAllFuel_step, h]

theorem stripToken_id {t : Token} (h : is_long_arg t = false) : stripToken t = t := by
  unfold stripToken
  rw [if_neg (by simp [h])]

theorem stripToken_marked {t : Token} (h : t ≠ []) :
    stripToken ('-' :: '-' :: t) = t := by
  unfold stripToken
  rw [if_pos]
  · rfl
  · cases t with
    | nil => exact absurd rfl h
    | cons a as =>
      unfold is_long_arg
      simp [tok, List.isPrefixOf]

/-- C5: for every zero-argument operation (flip-horizontal, flip-vertical,
invert, grayscale, rotate90, rotate180, rotate270), `Op::from_str` consumes
no further token: it succeeds with the remaining stream unchanged, and the
parser step emits the operation leaving the following tokens in place. -/
theorem claim5_zero_arg_consume_nothing (ts : List Token) :
    (Op.from_str ts (tok "flip-horizontal") = some (.ok (Op.FlipHorizontal, ts)) ∧
     Op.from_str ts (tok "flip-vertical") = some (.ok (Op.FlipVertical, ts)) ∧
     Op.from_str ts (tok "invert") = some (.ok (Op.Invert, ts)) ∧
     Op.from_str ts (tok "grayscale") = some (.ok (Op.Grayscale, ts)) ∧
     Op.from_str ts (tok "rotate90") = some (.ok (Op.Rotate90, ts)) ∧
     Op.from_str ts (tok "rotate180") = some (.ok (Op.Rotate180, ts)) ∧
     Op.from_str ts (tok "rotate270") = some (.ok (Op.Rotate270, ts))) ∧
    (pstep (tok "flip-horizontal" :: ts) = .emit (.Operation .FlipHorizontal) ts ∧
     pstep (tok "flip-vertical" :: ts) = .emit (.Operation .FlipVertical) ts ∧
     pstep (tok "invert" :: ts) = .emit (.Operation .Invert) ts ∧
     pstep (tok "grayscale" :: ts) = .emit (.Operation .Grayscale) ts ∧
     pstep (tok "rotate90" :: ts) = .emit (.Operation .Rotate90) ts ∧
     pstep (tok "rotate180" :: ts) = .emit (.Operation .Rotate180) ts ∧
     pstep (tok "rotate270" :: ts) = .emit (.Operation .Rotate270) ts) :=
  ⟨⟨rfl, rfl, rfl, rfl, rfl, rfl, rfl⟩, ⟨rfl, rfl, rfl, rfl, rfl, rfl, rfl⟩⟩

/-- C8: every successfully parsed modifier declaration is emitted as a
`SetModifier` bound to the fixed operation index 0, whatever the target
operation name and the modifier are. -/
theorem claim8_fixed_index (l : List Token) (c : Core) (r : List Token)
    (h : Modifier.modifier_for l = .ok (c, r)) :
    ∃ m, c = Core.SetModifier 0 m := by
  cases l with
  | nil => simp [Modifier.modifier_for] at h
  | cons v ts =>
    rw [modifier_for_cons] at h
    by_cases h1 : Op.is_some v = true
    · rw [if_pos h1] at h
      cases hm : Modifier.consume_args ts with
      | error e => rw [hm] at h; exact absurd h (by simp)
      | ok p =>
        obtain ⟨m, r0⟩ := p
        rw [hm] at h
        simp at h
        exact ⟨m, h.1.symm⟩
    · rw [if_neg h1] at h
      exact absurd h (by simp)

/-- C8 witness: the declaration `set resize preserve-aspect-ratio` is bound
to operation index 0. -/
theorem claim8_witness :
    ∃ m, Core.SetModifier 0 Modifier.PreserveAspectRatio = Core.SetModifier 0 m :=
  claim8_fixed_index [tok "resize", tok "preserve-aspect-ratio"]
    (Core.SetModifier 0 Modifier.PreserveAspectRatio) [] rfl

/-- C10: every token that merely starts with the characters `set` is routed
into modifier parsing (`Modifier::modifier_for` on the remaining stream),
never reported as an unexpected token. -/
theorem claim10_set_routing (t : Token) (rest : List Token)
    (h : Modifier.modifier_start t = true) :
    pstep (t :: rest) =
      (match Modifier.modifier_for rest with
        | .ok (c, r) => Step.emit c r
        | .error e => Step.fail e) := by
  rw [pstep_cons, stripToken_id (modifier_start_not_long h)]
  exact dispatch_modifier (modifier_start_ne_stop h) (modifier_start_not_op h) h

/-- C10 witness: the lone token `settings` enters modifier parsing and fails
there (no target operation follows), rather than as an unexpected token. -/
theorem claim10_witness :
    pstep [tok "settings"] =
      .fail (.PPTE .InvalidModifierSyntaxError) :=
  (claim10_set_routing (tok "settings") [] (by decide)).trans rfl

/-- C3 counterexample: the sampling-filter keyword accepts the token `bogus`,
which is outside the closed filter-name set, and the parse succeeds instead
of failing with an invalid-modifier-syntax error. -/
theorem claim3_counterexample :
    prototype [tok "set", tok "resize", tok "sampling-filter", tok "bogus"] =
      .ok [Core.SetModifier 0 (Modifier.SamplingFilter (tok "bogus"))] := rfl

/-- C3 (amended): in a modifier declaration the sampling-filter keyword
consumes exactly one argument token, which is stored unvalidated (any token
is accepted); a missing argument token fails with a
modifier-argument-expected error. -/
theorem claim3_amended :
    (∀ (t : Token) (ts : List Token),
      Modifier.consume_args (tok "sampling-filter" :: t :: ts) =
        .ok (Modifier.SamplingFilter t, ts)) ∧
    Modifier.consume_args [tok "sampling-filter"] =
      .error (.PPTE .ModifierArgumentExpected) :=
  ⟨fun _ _ => rfl, rfl⟩

/-- C7: prefixing the first token with the cli marker `--` (Arg-mode shape)
parses to exactly the same program as the unprefixed (Script-mode shape)
token stream, for any first token that is nonempty and not itself
marker-prefixed — in particular for every operation name. -/
theorem claim7_marker_invariance (t : Token) (rest : List Token)
    (h1 : t ≠ []) (h2 : is_long_arg t = false) :
    prototype (('-' :: '-' :: t) :: rest) = prototype (t :: rest) := by
  have hp : pstep (('-' :: '-' :: t) :: rest) = pstep (t :: rest) := by
    rw [pstep_cons, pstep_cons, stripToken_marked h1, stripToken_id h2]
  unfold prototype
  simp only [List.length_cons]
  rw [parseAllFuel_step, parseAllFuel_step, hp]

/-- C7 witness: `--blur 1.5` and `blur 1.5` produce identical programs. -/
theorem claim7_witness :
    prototype (('-' :: '-' :: tok "blur") :: [tok "1.5"]) =
      prototype (tok "blur" :: [tok "1.5"]) :=
  claim7_marker_invariance (tok "blur") [tok "1.5"] (by decide) (by decide)

/-- C4 counterexample: the end-of-text stop mark is an ordinary one-character
string that an input token can equal; on input `[ETX, "~"]` the parser stops
at the first token and accepts with the empty program, although the token
`~` on its own is rejected — the input is not iterated to its end. -/
theorem claim4_counterexample :
    prototype [stopMark, tok "~"] = .ok [] ∧
      prototype [tok "~"] = .error (.Unexpected (tok "~")) := ⟨rfl, rfl⟩

/-- C4 (amended): the sentinel equals the one-character ETX string, so it can
collide with an input token; on every token list in which no token strips to
the sentinel, a parser step reports end-of-input exactly at the end of the
list. -/
theorem claim4_amended (l : List Token) (h : ∀ t ∈ l, stripToken t ≠ stopMark) :
    pstep l = .done ↔ l = [] := by
  cases l with
  | nil => simp [pstep]
  | cons t ts =>
    constructor
    · intro hd
      exact absurd hd (by rw [pstep_cons]; exact dispatch_ne_done (h t (by simp)))
    · intro hc
      exact absurd hc (by simp)

/-- C4 witness: the amended statement at the concrete input `blur 1`. -/
theorem claim4_witness :
    (pstep [tok "blur", tok "1"] = .done ↔ ([tok "blur", tok "1"] : List Token) = []) :=
  claim4_amended [tok "blur", tok "1"] (by decide)

/-- C2 counterexample: the unrecognized long cli flag `--foo` makes the
parser fail with an unexpected-token error on the stripped name instead of
skipping and emitting a Skip instruction. -/
theorem claim2_counterexample :
    prototype [tok "--foo"] = .error (.Unexpected (tok "foo")) := rfl

/-- C2 (amended): only a token whose marker-stripped form is still
cli-argument-shaped is skipped: a short flag is consumed together with the
following non-flag tokens and emits Skip without error, while a long flag
whose stripped name is not an operation, not a `set`-prefixed token, not
cli-argument-shaped and not the stop mark fails with an unexpected-token
error naming the stripped name. -/
theorem claim2_amended :
    (∀ (t : Token) (ts : List Token), is_short_arg t = true →
      pstep (t :: ts) = .emit Core.Skip (ts.dropWhile fun u => !is_cli_arg u)) ∧
    (∀ (t : Token) (ts : List Token), is_long_arg t = true →
      Op.is_some (t.drop 2) = false →
      Modifier.modifier_start (t.drop 2) = false →
      is_cli_arg (t.drop 2) = false →
      t.drop 2 ≠ stopMark →
      pstep (t :: ts) = .fail (.Unexpected (t.drop 2))) := by
  constructor
  · intro t ts h
    obtain ⟨hlong, hstop, hop, hmod⟩ := short_arg_props h
    rw [pstep_cons, stripToken_id hlong]
    unfold dispatch
    rw [if_neg hstop, if_neg (by simp [hop]), if_neg (by simp [hmod]),
      if_pos (show is_cli_arg t = true by unfold is_cli_arg; rw [hlong, h]; rfl)]
  · intro t ts hlong hop hmod hcli hstop
    have hstrip : stripToken t = t.drop 2 := by
      unfold stripToken
      rw [if_pos hlong]
    rw [pstep_cons, hstrip]
    unfold dispatch
    rw [if_neg hstop, if_neg (by simp [hop]), if_neg (by simp [hmod]),
      if_neg (by simp [hcli])]

/-- C2 witness: the short flag `-x` skips itself and the following non-flag
token; the long flag `--foo` fails with an unexpected-token error. -/
theorem claim2_witness :
    pstep [tok "-x", tok "a", tok "--blur"] = .emit Core.Skip [tok "--blur"] ∧
    pstep [tok "--foo"] = .fail (.Unexpected (tok "foo")) := by
  constructor
  · exact (claim2_amended.1 (tok "-x") [tok "a", tok "--blur"] (by decide)).trans (by decide)
  · exact claim2_amended.2 (tok "--foo") [] (by decide) (by decide) (by decide) (by decide)
      (by decide)

/-- C9: for every input that is a concatenation of well-formed operation
chunks, the parse succeeds and the program is exactly the chunk operations,
one instruction per chunk, in input order — nothing reordered, dropped or
deduplicated. -/
theorem claim9_order_preserving (l : List Token) (ops : List Op) (h : Chunks l ops) :
    prototype l = .ok (ops.map Core.Operation) := by
  induction h with
  | nil => rfl
  | @cons name rest0 rest op ops hs hf hch ih =>
    have hd : pstep (name :: rest0) = .emit (.Operation op) rest := by
      rw [pstep_cons, stripToken_id (opname_props hs).1]
      exact dispatch_op hs hf
    rw [prototype_emit hd, ih]
    rfl

/-- C9 witness: the three operations `blur 1`, `flip-horizontal`,
`crop 0 1 2 3` parse to exactly three instructions in input order. -/
theorem claim9_witness :
    prototype [tok "blur", tok "1", tok "flip-horizontal", tok "crop",
        tok "0", tok "1", tok "2", tok "3"] =
      .ok [Core.Operation (Op.Blur ⟨tok "1"⟩), Core.Operation Op.FlipHorizontal,
        Core.Operation (Op.Crop (0, 1, 2, 3))] :=
  claim9_order_preserving
    [tok "blur", tok "1", tok "flip-horizontal", tok "crop",
      tok "0", tok "1", tok "2", tok "3"]
    [Op.Blur ⟨tok "1"⟩, Op.FlipHorizontal, Op.Crop (0, 1, 2, 3)]
    (Chunks.cons rfl rfl (Chunks.cons rfl rfl (Chunks.cons rfl rfl Chunks.nil)))

theorem neg_parseU32 {t : Token} (h : (tok "-").isPrefixOf t = true) :
    parseU32 t = none := by
  obtain ⟨r, rfl⟩ := List.isPrefixOf_iff_prefix.mp h
  rfl

/-- C6: supplying a negative-looking token (leading `-`) in any of the four
unsigned crop coordinate positions, or either of the two unsigned resize
positions, always fails the operation parse with the UInt-specific numeric
parse error; it never succeeds by wrapping or coercing. -/
theorem claim6_negative_uint :
    (∀ (t1 t2 t3 t4 : Token) (rest : List Token),
      ((tok "-").isPrefixOf t1 || (tok "-").isPrefixOf t2 ||
        (tok "-").isPrefixOf t3 || (tok "-").isPrefixOf t4) = true →
      Op.from_str (t1 :: t2 :: t3 :: t4 :: rest) (tok "crop") =
        some (.error (.PPTE .ParseUIntError))) ∧
    (∀ (t1 t2 : Token) (rest : List Token),
      ((tok "-").isPrefixOf t1 || (tok "-").isPrefixOf t2) = true →
      Op.from_str (t1 :: t2 :: rest) (tok "resize") =
        some (.error (.PPTE .ParseUIntError))) := by
  constructor
  · intro t1 t2 t3 t4 rest h
    rw [from_str_crop]
    have hx : parseU32x4 (t1 :: t2 :: t3 :: t4 :: rest) = .error .ParseUIntError := by
      rcases Bool.or_eq_true_iff.mp h with h' | h4
      · rcases Bool.or_eq_true_iff.mp h' with h'' | h3
        · rcases Bool.or_eq_true_iff.mp h'' with h1 | h2
          · simp [parseU32x4, parseOne, neg_parseU32 h1]
          · cases hc1 : parseU32 t1 with
            | none => simp [parseU32x4, parseOne, hc1]
            | some v1 => simp [parseU32x4, parseOne, hc1, neg_parseU32 h2]
        · cases hc1 : parseU32 t1 with
          | none => simp [parseU32x4, parseOne, hc1]
          | some v1 =>
            cases hc2 : parseU32 t2 with
            | none => simp [parseU32x4, parseOne, hc1, hc2]
            | some v2 => simp [parseU32x4, parseOne, hc1, hc2, neg_parseU32 h3]
      · cases hc1 : parseU32 t1 with
        | none => simp [parseU32x4, parseOne, hc1]
        | some v1 =>
          cases hc2 : parseU32 t2 with
          | none => simp [parseU32x4, parseOne, hc1, hc2]
          | some v2 =>
            cases hc3 : parseU32 t3 with
            | none => simp [parseU32x4, parseOne, hc1, hc2, hc3]
            | some v3 => simp [parseU32x4, parseOne, hc1, hc2, hc3, neg_parseU32 h4]
    simp [res1, hx]
  · intro t1 t2 rest h
    rw [from_str_resize]
    have hx : parseU32x2 (t1 :: t2 :: rest) = .error .ParseUIntError := by
      rcases Bool.or_eq_true_iff.mp h with h1 | h2
      · simp [parseU32x2, parseOne, neg_parseU32 h1]
      · cases hc1 : parseU32 t1 with
        | none => simp [parseU32x2, parseOne, hc1]
        | some v1 => simp [parseU32x2, parseOne, hc1, neg_parseU32 h2]
    simp [res1, hx]

/-- C6 witness: `crop 0 0 0 -1` fails with the UInt parse error. -/
theorem claim6_witness :
    Op.from_str [tok "0", tok "0", tok "0", tok "-1"] (tok "crop") =
      some (.error (.PPTE .ParseUIntError)) :=
  claim6_negative_uint.1 (tok "0") (tok "0") (tok "0") (tok "-1") [] (by decide)

/-- C1 counterexample: on `["--crop","--crop","0","1","2","3"]` the
cli-argument parser fails with the UInt value-coercion error, not with the
argument-count-mismatch kind (`ExpectedArgumentForImageOperation`); the
second input shows what the argument-count-mismatch error looks like when
the stream really is starved. -/
theorem claim1_counterexample :
    create_image_ops_cli [tok "--crop", tok "--crop", tok "0", tok "1", tok "2", tok "3"] =
      .error (.UnableToParseValueOfType .uint) ∧
    create_image_ops_cli [tok "--crop", tok "0", tok "1", tok "2"] =
      .error (.ExpectedArgumentForImageOperation (tok "crop") 3) := ⟨rfl, rfl⟩

/-- C1 (amended): on `["--crop","--crop","0","1","2","3"]` the second
`--crop` is consumed as an argument token by `take_n` (leaving `"3"` in the
stream), so four argument tokens are available and the parse fails with the
UInt-specific numeric coercion error on `--crop`, not with an
argument-count mismatch. -/
theorem claim1_amended :
    take_n [tok "--crop", tok "0", tok "1", tok "2", tok "3"] OperationId.Crop =
      .ok ([tok "--crop", tok "0", tok "1", tok "2"], [tok "3"]) ∧
    create_image_ops_cli [tok "--crop", tok "--crop", tok "0", tok "1", tok "2", tok "3"] =
      .error (.UnableToParseValueOfType .uint) := ⟨rfl, rfl⟩
